import Mathlib

/-!
Shallow embedding of the `yoapi_plugin_mysqldb` MySQL plugin: the async
connection pool (`core/connection.py`), the multi-database router
(`features/router.py`), the transaction manager (`services/crud.py`), and the
configuration loading pipeline (`utils/env_validator.py`,
`config/settings.py`).  Stateful Python code is modelled by explicit state
passing; Python exceptions are modelled by `Except`/`Option` results; the
nondeterminism of the environment (connection creation succeeding or failing,
a connection passing or failing the liveness probe, another task releasing a
connection while we wait) is modelled by Boolean oracle parameters.
-/

namespace MysqlDb

/--
Exception kinds raised by the plugin, from `exceptions/database.py` plus the
Python builtins the code can hit (`ValueError` from the env validator,
`AttributeError` from looking up a method that a class does not define,
`IndexError` from indexing an empty list).  Message payloads are kept only for
`ValueError`, where the validator re-wraps the message text; for the other
kinds only the exception class matters to the spec.
-/
inductive PyExc where
  | databaseConnectionError
  | connectionPoolExhaustedError
  | databaseTimeoutError
  | noAvailableDatabaseError
  | databaseRouterError
  | transactionError
  | databaseQueryError
  | databaseConfigError
  | valueError (msg : String)
  | attributeError (attr : String)
  | indexError
  deriving Repr, DecidableEq

/--
`config/settings.py` `DatabaseConfig`, extended with the two fields that
`core/connection.py` reads off the config object (`driver`,
`connect_timeout`); the spec's configuration schema (section 6) lists both.
-/
structure DatabaseConfig where
  host : String
  port : Int
  user : String
  password : String
  database : String
  pool_size : Nat := 10
  max_overflow : Nat := 20
  charset : String := "utf8mb4"
  collation : String := "utf8mb4_unicode_ci"
  autocommit : Bool := true
  connect_timeout : Nat := 30
  driver : String := "aiomysql"
  deriving Repr, DecidableEq

/--
State of one `AsyncConnectionPool` (`core/connection.py`).  `idle` is the
number of connections sitting in the `asyncio.Queue` bound to `self._pool`;
`live` is `self._current_connections` (an `int` in Python, so `Int` here: the
code decrements it without a lower-bound guard); `is_initialized` is
`self._is_initialized`.  `borrowed` is bookkeeping state (not a Python field):
the number of connections currently yielded to callers by `get_connection`
and not yet returned by its `finally` block.
-/
structure PoolState where
  idle : Nat
  live : Int
  borrowed : Nat
  is_initialized : Bool
  deriving Repr, DecidableEq

/-- The state of a pool object as built by `AsyncConnectionPool.__init__`. -/
def initialPoolState : PoolState :=
  { idle := 0, live := 0, borrowed := 0, is_initialized := false }

/--
`AsyncConnectionPool.initialize`.  A fresh queue is installed, then
`min(3, pool_size)` connection creations are attempted; each may fail (the
failure is logged and swallowed).  `createOk` lists the outcome of each
attempt, attempts beyond the list counting as failures.  Each success is put
into the queue and counted in `_current_connections`.
-/
def initPool (cfg : DatabaseConfig) (createOk : List Bool) (st : PoolState) :
    PoolState :=
  if st.is_initialized then st
  else
    let attempts := min 3 cfg.pool_size
    let created := ((createOk.take attempts).filter id).length
    { idle := created
      live := st.live + created
      borrowed := st.borrowed
      is_initialized := true }

/--
Exceptions that the `try` around `asyncio.wait_for(self._pool.get(), ...)`
in `AsyncConnectionPool.get_connection` installs handlers for.
-/
inductive QueueGetExc where
  | queueEmpty
  | timeoutError
  deriving Repr, DecidableEq

/--
Semantics of `await asyncio.wait_for(self._pool.get(), timeout=...)`: if the
queue holds an item it is handed out at once; otherwise the caller suspends
until another task puts a connection into the queue (`releasedDuringWait`) or
the timeout elapses, in which case `wait_for` raises `asyncio.TimeoutError`.
`asyncio.Queue.get` is the awaiting accessor: it never raises
`asyncio.QueueEmpty` (only the non-waiting `Queue.get_nowait` does), so the
`queueEmpty` outcome is never produced.  The second component is the queue
size after the call.
-/
def waitForPoolGet (idle : Nat) (releasedDuringWait : Bool) :
    Except QueueGetExc Unit × Nat :=
  if 0 < idle then (Except.ok (), idle - 1)
  else if releasedDuringWait then (Except.ok (), 0)
  else (Except.error QueueGetExc.timeoutError, idle)

/--
Environment oracles for one `get_connection` acquisition: the outcomes of the
initial-connection creations should the pool still need initializing, whether
another task releases a connection into the queue while we wait, and whether
`_create_connection` would succeed in the queue-empty handler.
-/
structure AcquireEnv where
  initCreateOk : List Bool := []
  releasedDuringWait : Bool := false
  overflowCreateOk : Bool := true
  deriving Repr, DecidableEq

/--
The acquisition phase of `AsyncConnectionPool.get_connection` (lines 109-136):
initialize if needed, then try to take a connection from the queue within
`connect_timeout`; on `QueueEmpty` create a fresh connection when
`_current_connections < pool_size + max_overflow` and otherwise raise
`ConnectionPoolExhaustedError`; on `TimeoutError` raise
`DatabaseTimeoutError`.  Returns the outcome together with the pool state
(initialization persists even when the acquisition fails).
-/
def poolAcquire (cfg : DatabaseConfig) (env : AcquireEnv) (st : PoolState) :
    Except PyExc Unit × PoolState :=
  let st1 := if st.is_initialized then st else initPool cfg env.initCreateOk st
  match waitForPoolGet st1.idle env.releasedDuringWait with
  | (Except.ok (), idle2) =>
      (Except.ok (), { st1 with idle := idle2, borrowed := st1.borrowed + 1 })
  | (Except.error QueueGetExc.queueEmpty, _) =>
      if st1.live < (cfg.pool_size : Int) + (cfg.max_overflow : Int) then
        if env.overflowCreateOk then
          (Except.ok (), { st1 with live := st1.live + 1, borrowed := st1.borrowed + 1 })
        else (Except.error PyExc.databaseConnectionError, st1)
      else (Except.error PyExc.connectionPoolExhaustedError, st1)
  | (Except.error QueueGetExc.timeoutError, _) =>
      (Except.error PyExc.databaseTimeoutError, st1)

/--
The `finally` block of `AsyncConnectionPool.get_connection` (lines 138-157),
run when a borrowed connection is returned.  `connValid` is the result of the
`_is_connection_valid` probe (that helper catches its own exceptions and
returns a Bool, so it never raises); `replaceOk` says whether the best-effort
`_create_connection`-and-put replacement of an invalid connection succeeds
(its failures are swallowed by the inner `except`); `putOk` says whether
returning a valid connection with `self._pool.put` completes (its failure
lands in the outer `except`, which decrements the counter and swallows).
Returns the new state, the number of replacement creations attempted, and the
exception propagated to the releasing caller, if any.
-/
def poolRelease (_cfg : DatabaseConfig) (connValid replaceOk putOk : Bool)
    (st : PoolState) : PoolState × Nat × Option PyExc :=
  if st.borrowed = 0 then (st, 0, none)
  else
    let b := st.borrowed - 1
    if connValid then
      if putOk then ({ st with idle := st.idle + 1, borrowed := b }, 0, none)
      else ({ st with live := st.live - 1, borrowed := b }, 0, none)
    else
      if replaceOk then
        ({ st with idle := st.idle + 1, borrowed := b }, 1, none)
      else
        ({ st with live := st.live - 1, borrowed := b }, 1, none)

/--
`AsyncConnectionPool.close`: drain and close every idle connection, reset the
counter and the initialization flag.  Connections still checked out are not
touched (`borrowed` stays).
-/
def poolClose (st : PoolState) : PoolState :=
  if st.is_initialized then
    { idle := 0, live := 0, borrowed := st.borrowed, is_initialized := false }
  else st

/--
One operation on a pool, for stating lifecycle invariants.  Oracle data is
carried in the operation.  Acquisitions in a sequential trace never observe a
concurrent release (a release that satisfies a waiting `get` is the release
operation followed by the acquisition), so `acquireOp` runs with
`releasedDuringWait := false`.
-/
inductive PoolOp where
  | initOp (createOk : List Bool)
  | acquireOp (initCreateOk : List Bool) (overflowCreateOk : Bool)
  | releaseOp (connValid replaceOk putOk : Bool)
  | closeOp
  deriving Repr, DecidableEq

/-- Apply one pool operation to a pool state. -/
def poolStep (cfg : DatabaseConfig) (st : PoolState) : PoolOp → PoolState
  | PoolOp.initOp l => initPool cfg l st
  | PoolOp.acquireOp l ov =>
      (poolAcquire cfg { initCreateOk := l, releasedDuringWait := false,
                         overflowCreateOk := ov } st).2
  | PoolOp.releaseOp v r p => (poolRelease cfg v r p st).1
  | PoolOp.closeOp => poolClose st

/-- Run a sequence of pool operations. -/
def runPool (cfg : DatabaseConfig) (st : PoolState) (ops : List PoolOp) :
    PoolState :=
  ops.foldl (poolStep cfg) st

/--
Pool accounting invariant: the live counter is exactly the idle connections
plus the checked-out connections (hence nonnegative), it never exceeds
`pool_size + max_overflow`, and an uninitialized pool holds nothing.
-/
def PoolInv (cfg : DatabaseConfig) (st : PoolState) : Prop :=
  st.live = (st.idle : Int) + (st.borrowed : Int) ∧
  st.live ≤ (cfg.pool_size : Int) + (cfg.max_overflow : Int) ∧
  (st.is_initialized = false → st.idle = 0 ∧ st.borrowed = 0)

/-- `closesSafe` holds of a trace in which `close` is only ever invoked while
no connection is checked out. -/
def closesSafe (cfg : DatabaseConfig) : PoolState → List PoolOp → Bool
  | _, [] => true
  | st, op :: rest =>
      ((op != PoolOp.closeOp) || (st.borrowed == 0)) &&
      closesSafe cfg (poolStep cfg st op) rest

theorem initPool_inv (cfg : DatabaseConfig) (createOk : List Bool)
    (st : PoolState) (h : PoolInv cfg st) : PoolInv cfg (initPool cfg createOk st) := by
  unfold initPool
  split
  · exact h
  · next hni =>
    obtain ⟨h1, h2, h3⟩ := h
    obtain ⟨hidle, hbor⟩ := h3 (by revert hni; cases st.is_initialized <;> simp)
    have hlen : ((createOk.take (min 3 cfg.pool_size)).filter id).length ≤
        cfg.pool_size := by
      calc ((createOk.take (min 3 cfg.pool_size)).filter id).length
          ≤ (createOk.take (min 3 cfg.pool_size)).length :=
            List.length_filter_le _ _
        _ ≤ min 3 cfg.pool_size := by
            rw [List.length_take]; exact min_le_left _ _
        _ ≤ cfg.pool_size := min_le_right _ _
    refine ⟨?_, ?_, ?_⟩
    · simp only [hidle, hbor] at h1
      simp only [hbor]
      push_cast at h1 ⊢
      omega
    · simp only [hidle, hbor] at h1
      push_cast at h1 ⊢
      omega
    · intro hfalse; simp at hfalse

theorem poolStep_inv (cfg : DatabaseConfig) (st : PoolState) (op : PoolOp)
    (h : PoolInv cfg st) (hclose : op = PoolOp.closeOp → st.borrowed = 0) :
    PoolInv cfg (poolStep cfg st op) := by
  obtain ⟨h1, h2, h3⟩ := h
  cases op with
  | initOp l => exact initPool_inv cfg l st ⟨h1, h2, h3⟩
  | acquireOp l ov =>
    simp only [poolStep, poolAcquire]
    have hst1 : PoolInv cfg
        (if st.is_initialized = true then st else initPool cfg l st) := by
      split
      · exact ⟨h1, h2, h3⟩
      · exact initPool_inv cfg l st ⟨h1, h2, h3⟩
    generalize hgen :
      (if st.is_initialized = true then st else initPool cfg l st) = st1 at *
    obtain ⟨g1, g2, g3⟩ := hst1
    unfold waitForPoolGet
    by_cases hidle : 0 < st1.idle
    · simp only [hidle, if_pos]
      refine ⟨?_, g2, ?_⟩
      · push_cast at g1 ⊢; omega
      · intro hf; exact absurd (g3 hf).1 (by omega)
    · simp only [hidle, if_neg, if_false, Bool.false_eq_true]
      exact ⟨g1, g2, g3⟩
  | releaseOp v r p =>
    simp only [poolStep, poolRelease]
    by_cases hb : st.borrowed = 0
    · simp only [hb, if_pos]; exact ⟨h1, h2, h3⟩
    · have hbi : st.is_initialized = true := by
        by_contra hni
        exact hb (h3 (by revert hni; cases st.is_initialized <;> simp)).2
      simp only [hb, if_neg, if_false]
      split <;> split <;>
        (refine ⟨?_, ?_, ?_⟩
         · push_cast at h1 ⊢; omega
         · push_cast at h1 ⊢; omega
         · intro hf; rw [hbi] at hf; exact absurd hf (by simp))
  | closeOp =>
    have hb := hclose rfl
    simp only [poolStep, poolClose]
    split
    · exact ⟨by simp [hb], by positivity, fun _ => ⟨rfl, by simp [hb]⟩⟩
    · exact ⟨h1, h2, h3⟩

theorem runPool_inv (cfg : DatabaseConfig) (ops : List PoolOp) (st : PoolState)
    (h : PoolInv cfg st) (hsafe : closesSafe cfg st ops = true) :
    PoolInv cfg (runPool cfg st ops) := by
  induction ops generalizing st with
  | nil => exact h
  | cons op rest ih =>
    simp only [closesSafe, Bool.and_eq_true] at hsafe
    refine ih (poolStep cfg st op) (poolStep_inv cfg st op h ?_) hsafe.2
    intro hop
    rcases Bool.or_eq_true _ _ |>.mp hsafe.1 with hne | hz
    · exact absurd hop (by simpa using hne)
    · simpa using hz

theorem closesSafe_append (cfg : DatabaseConfig) (l1 l2 : List PoolOp)
    (st : PoolState) (h : closesSafe cfg st (l1 ++ l2) = true) :
    closesSafe cfg st l1 = true := by
  induction l1 generalizing st with
  | nil => rfl
  | cons op rest ih =>
    simp only [List.cons_append, closesSafe, Bool.and_eq_true] at h ⊢
    exact ⟨h.1, ih _ h.2⟩

/--
C2.  The claim as stated is false (see
`pool_live_count_negative_after_close_release`): `close` resets
`_current_connections` to zero without accounting for checked-out
connections, so a later release of an invalid connection drives the counter
to `-1`.  Amended form: for every operation sequence in which `close` is only
invoked while no connection is checked out, the invariant
`0 ≤ live_count ≤ pool_size + max_overflow` holds after every prefix of the
sequence (in particular no acquire ever hands out a connection in violation
of the bound).
-/
theorem pool_live_count_bounds_amended (cfg : DatabaseConfig)
    (ops pre : List PoolOp) (hsafe : closesSafe cfg initialPoolState ops = true)
    (hpre : pre <+: ops) :
    0 ≤ (runPool cfg initialPoolState pre).live ∧
    (runPool cfg initialPoolState pre).live ≤
      (cfg.pool_size : Int) + (cfg.max_overflow : Int) := by
  obtain ⟨t, rfl⟩ := hpre
  have hinv0 : PoolInv cfg initialPoolState := by
    refine ⟨by simp [initialPoolState], by positivity, fun _ => ⟨rfl, rfl⟩⟩
  have hinv := runPool_inv cfg pre initialPoolState hinv0
    (closesSafe_append cfg pre t initialPoolState hsafe)
  exact ⟨hinv.1 ▸ by positivity, hinv.2.1⟩

/-- Concrete configuration used by the closed counterexample theorems. -/
def cfgSmall : DatabaseConfig :=
  { host := "localhost", port := 3306, user := "root", password := "pw",
    database := "db", pool_size := 1, max_overflow := 0 }

/--
C2 counterexample: initialize a `pool_size=1, max_overflow=0` pool (one
connection created), check the connection out, close the pool (the code sets
`_current_connections = 0` while the connection is still borrowed), then
return the connection with a failing liveness probe and a failing
replacement: the release path decrements `_current_connections` to `-1`,
violating `0 ≤ live_count`.
-/
theorem pool_live_count_negative_after_close_release :
    (runPool cfgSmall initialPoolState
      [PoolOp.initOp [true], PoolOp.acquireOp [] true, PoolOp.closeOp,
       PoolOp.releaseOp false false true]).live = -1 := by decide

/-- Closed witness for `pool_live_count_bounds_amended`. -/
theorem pool_live_count_bounds_amended_witness :
    0 ≤ (runPool cfgSmall initialPoolState
      [PoolOp.initOp [true], PoolOp.acquireOp [] true,
       PoolOp.releaseOp true true true, PoolOp.closeOp]).live ∧
    (runPool cfgSmall initialPoolState
      [PoolOp.initOp [true], PoolOp.acquireOp [] true,
       PoolOp.releaseOp true true true, PoolOp.closeOp]).live ≤
      (cfgSmall.pool_size : Int) + (cfgSmall.max_overflow : Int) :=
  pool_live_count_bounds_amended cfgSmall _ _ (by decide)
    (List.prefix_refl _)

theorem poolAcquire_ok_or_timeout (cfg : DatabaseConfig) (env : AcquireEnv)
    (st : PoolState) :
    (poolAcquire cfg env st).1 = Except.ok () ∨
    (poolAcquire cfg env st).1 = Except.error PyExc.databaseTimeoutError := by
  unfold poolAcquire waitForPoolGet
  by_cases h1 :
      0 < (if st.is_initialized = true then st
           else initPool cfg env.initCreateOk st).idle
  · simp [h1]
  · by_cases h2 : env.releasedDuringWait <;> simp [h1, h2]

/--
C1.  Code-bug exhibit for the acquisition path of
`AsyncConnectionPool.get_connection`: an idle connection is handed out
immediately, but when the queue is empty the call always waits out
`connect_timeout` and raises `DatabaseTimeoutError`, even when
`live_count < pool_size + max_overflow` — `await asyncio.Queue.get()` never
raises `asyncio.QueueEmpty`, so the handler that would create an overflow
connection (or raise `ConnectionPoolExhaustedError` at capacity) is
unreachable, and neither `ConnectionPoolExhaustedError` nor
`DatabaseConnectionError` can ever be produced by the acquisition.
-/
theorem acquire_times_out_instead_of_creating_connection
    (cfg : DatabaseConfig) (env : AcquireEnv) (st : PoolState) :
    (st.is_initialized = true → 0 < st.idle →
      (poolAcquire cfg env st).1 = Except.ok ()) ∧
    (st.is_initialized = true → st.idle = 0 → env.releasedDuringWait = false →
      st.live < (cfg.pool_size : Int) + (cfg.max_overflow : Int) →
      poolAcquire cfg env st = (Except.error PyExc.databaseTimeoutError, st)) ∧
    (poolAcquire cfg env st).1 ≠ Except.error PyExc.connectionPoolExhaustedError ∧
    (poolAcquire cfg env st).1 ≠ Except.error PyExc.databaseConnectionError := by
  refine ⟨?_, ?_, ?_, ?_⟩
  · intro hinit hidle
    unfold poolAcquire waitForPoolGet
    simp [hinit, hidle]
  · intro hinit hidle hrel _
    unfold poolAcquire waitForPoolGet
    simp [hinit, hidle, hrel]
  · rcases poolAcquire_ok_or_timeout cfg env st with h | h <;> simp [h]
  · rcases poolAcquire_ok_or_timeout cfg env st with h | h <;> simp [h]

/-- Closed witness for `acquire_times_out_instead_of_creating_connection`:
an initialized `pool_size=1, max_overflow=0` pool with an empty queue and
`live_count = 0 < 1` times out rather than creating a connection. -/
theorem acquire_times_out_witness :
    poolAcquire cfgSmall ({} : AcquireEnv)
      { idle := 0, live := 0, borrowed := 0, is_initialized := true } =
      (Except.error PyExc.databaseTimeoutError,
       { idle := 0, live := 0, borrowed := 0, is_initialized := true }) :=
  (acquire_times_out_instead_of_creating_connection cfgSmall ({} : AcquireEnv)
    { idle := 0, live := 0, borrowed := 0, is_initialized := true }).2.1
    rfl rfl rfl (by decide)

/--
C8.  The release path (`finally` block of `get_connection`): a connection
that passes `_is_connection_valid` goes back into the idle queue; an invalid
connection is discarded with `_current_connections` decremented and exactly
one best-effort replacement is attempted (a successful replacement restores
both the counter and the idle queue, a failed one only lowers capacity); and
no combination of probe/replacement/put outcomes propagates an exception to
the releasing caller.
-/
theorem release_returns_or_replaces_never_raises (cfg : DatabaseConfig)
    (st : PoolState) (hb : 0 < st.borrowed) :
    (∀ replaceOk, (poolRelease cfg true replaceOk true st).1 =
      { st with idle := st.idle + 1, borrowed := st.borrowed - 1 }) ∧
    ((poolRelease cfg false true true st).1 =
      { st with idle := st.idle + 1, borrowed := st.borrowed - 1 }) ∧
    ((poolRelease cfg false false true st).1 =
      { st with live := st.live - 1, borrowed := st.borrowed - 1 }) ∧
    (∀ replaceOk putOk, (poolRelease cfg false replaceOk putOk st).2.1 = 1) ∧
    (∀ connValid replaceOk putOk,
      (poolRelease cfg connValid replaceOk putOk st).2.1 ≤ 1 ∧
      (poolRelease cfg connValid replaceOk putOk st).2.2 = none) := by
  have hb0 : ¬ st.borrowed = 0 := by omega
  refine ⟨fun replaceOk => ?_, ?_, ?_, fun replaceOk putOk => ?_,
    fun connValid replaceOk putOk => ⟨?_, ?_⟩⟩
  · simp [poolRelease, hb0]
  · simp [poolRelease, hb0]
  · simp [poolRelease, hb0]
  · cases replaceOk <;> cases putOk <;> simp [poolRelease, hb0]
  · cases connValid <;> cases replaceOk <;> cases putOk <;>
      simp [poolRelease, hb0]
  · cases connValid <;> cases replaceOk <;> cases putOk <;>
      simp [poolRelease, hb0]

/-- Closed witness for `release_returns_or_replaces_never_raises`. -/
theorem release_returns_or_replaces_witness :
    (poolRelease cfgSmall true true true
      { idle := 0, live := 1, borrowed := 1, is_initialized := true }).1 =
      { idle := 1, live := 1, borrowed := 0, is_initialized := true } ∧
    (poolRelease cfgSmall false false true
      { idle := 0, live := 1, borrowed := 1, is_initialized := true }).2.2 =
      none := by
  have h := release_returns_or_replaces_never_raises cfgSmall
    { idle := 0, live := 1, borrowed := 1, is_initialized := true } (by decide)
  exact ⟨h.1 true, (h.2.2.2.2 false false true).2⟩

/-! ### TransactionManager (`services/crud.py`) -/

/-- Observable events of one `TransactionManager.begin` context, in the order
the code performs them. -/
inductive TxEvent where
  | acquireEv
  | beginEv
  | commitEv
  | rollbackEv
  | releaseEv
  deriving Repr, DecidableEq

/--
`TransactionManager.begin` (crud.py lines 156-186), run to completion over a
pool.  `inTx` is the manager's `_in_transaction` flag on entry (`begin`
raises `TransactionError` at once when it is set).  The borrowed connection
comes from `connection_manager.get_connection`, whose `finally` block is the
pool release; `beginOk` is the outcome of `conn.begin()`/`autocommit(False)`,
`bodyFails` says whether the caller's block raises, `commitOk`/`rollbackOk`
are the outcomes of `conn.commit()`/`conn.rollback()`, and
`connValid`/`replaceOk` feed the pool's release-time validation.  Returns the
event trace, the final pool state, and the exception surfaced to the caller
(`none` on success); every failure escaping the inner blocks is wrapped into
`TransactionError` by the outer handler.
-/
def txBegin (cfg : DatabaseConfig) (env : AcquireEnv) (st : PoolState)
    (inTx beginOk bodyFails commitOk _rollbackOk connValid replaceOk : Bool) :
    List TxEvent × PoolState × Option PyExc :=
  if inTx then ([], st, some PyExc.transactionError)
  else
    match poolAcquire cfg env st with
    | (Except.error _, st1) => ([], st1, some PyExc.transactionError)
    | (Except.ok (), st1) =>
      let rel : PoolState := (poolRelease cfg connValid replaceOk true st1).1
      if beginOk = false then
        ([TxEvent.acquireEv, TxEvent.beginEv, TxEvent.releaseEv], rel,
         some PyExc.transactionError)
      else if bodyFails then
        ([TxEvent.acquireEv, TxEvent.beginEv, TxEvent.rollbackEv,
          TxEvent.releaseEv], rel, some PyExc.transactionError)
      else if commitOk then
        ([TxEvent.acquireEv, TxEvent.beginEv, TxEvent.commitEv,
          TxEvent.releaseEv], rel, none)
      else
        ([TxEvent.acquireEv, TxEvent.beginEv, TxEvent.commitEv,
          TxEvent.rollbackEv, TxEvent.releaseEv], rel,
         some PyExc.transactionError)

/--
C3.  `TransactionManager.begin` on a fresh manager over an initialized pool
with an idle connection: an uncaught failure of the body while the
transaction is active (and likewise a failing commit) performs the rollback
strictly before the connection is released; a successful exit performs the
commit strictly before release; the release is reached on every exit path
after the acquisition; the pool returns exactly to its pre-transaction state
(no leaked connection, the connection being valid on release); and a
subsequent acquisition on that pool succeeds.
-/
theorem tx_begin_rollback_commit_release
    (cfg : DatabaseConfig) (env env2 : AcquireEnv) (st : PoolState)
    (beginOk bodyFails commitOk rollbackOk : Bool)
    (evs : List TxEvent) (st2 : PoolState) (res : Option PyExc)
    (hinit : st.is_initialized = true) (hidle : 0 < st.idle)
    (hrun : txBegin cfg env st false beginOk bodyFails commitOk rollbackOk
      true true = (evs, st2, res)) :
    evs.indexOf TxEvent.releaseEv < evs.length ∧
    (beginOk = true → bodyFails = true →
      evs.indexOf TxEvent.rollbackEv < evs.indexOf TxEvent.releaseEv ∧
      res = some PyExc.transactionError) ∧
    (beginOk = true → bodyFails = false → commitOk = false →
      evs.indexOf TxEvent.commitEv < evs.indexOf TxEvent.rollbackEv ∧
      evs.indexOf TxEvent.rollbackEv < evs.indexOf TxEvent.releaseEv ∧
      res = some PyExc.transactionError) ∧
    (beginOk = true → bodyFails = false → commitOk = true →
      evs.indexOf TxEvent.commitEv < evs.indexOf TxEvent.releaseEv ∧
      res = none) ∧
    st2 = st ∧
    (poolAcquire cfg env2 st2).1 = Except.ok () := by
  have hacqOk : ∀ e : AcquireEnv, (poolAcquire cfg e st).1 = Except.ok () := by
    intro e
    unfold poolAcquire waitForPoolGet
    simp [hinit, hidle]
  have hacq : poolAcquire cfg env st =
      (Except.ok (), { st with idle := st.idle - 1, borrowed := st.borrowed + 1 }) := by
    unfold poolAcquire waitForPoolGet
    simp [hinit, hidle]
  have hrel : (poolRelease cfg true true true
      { st with idle := st.idle - 1, borrowed := st.borrowed + 1 }).1 = st := by
    have h1 : ¬ (st.borrowed + 1 = 0) := by omega
    rcases st with ⟨i, l, b, ini⟩
    simp only [poolRelease] at *
    simp [h1]
    omega
  unfold txBegin at hrun
  rw [hacq] at hrun
  cases beginOk <;> cases bodyFails <;> cases commitOk <;>
    (simp at hrun
     obtain ⟨he, hs, hr⟩ := hrun
     subst he
     subst hs
     subst hr
     exact ⟨by decide, by decide, by decide, by decide, hrel,
       by rw [hrel]; exact hacqOk env2⟩)

/-- Closed witness for `tx_begin_rollback_commit_release`: a failing body on a
one-connection pool rolls back before releasing and leaves the pool usable. -/
theorem tx_begin_witness :
    (txBegin cfgSmall ({} : AcquireEnv)
        { idle := 1, live := 1, borrowed := 0, is_initialized := true }
        false true true true true true true).1.indexOf TxEvent.rollbackEv <
      (txBegin cfgSmall ({} : AcquireEnv)
        { idle := 1, live := 1, borrowed := 0, is_initialized := true }
        false true true true true true true).1.indexOf TxEvent.releaseEv ∧
    (poolAcquire cfgSmall ({} : AcquireEnv)
      (txBegin cfgSmall ({} : AcquireEnv)
        { idle := 1, live := 1, borrowed := 0, is_initialized := true }
        false true true true true true true).2.1).1 = Except.ok () := by
  have h := tx_begin_rollback_commit_release cfgSmall ({} : AcquireEnv)
    ({} : AcquireEnv)
    { idle := 1, live := 1, borrowed := 0, is_initialized := true }
    true true true true
    (txBegin cfgSmall ({} : AcquireEnv)
      { idle := 1, live := 1, borrowed := 0, is_initialized := true }
      false true true true true true true).1
    (txBegin cfgSmall ({} : AcquireEnv)
      { idle := 1, live := 1, borrowed := 0, is_initialized := true }
      false true true true true true true).2.1
    (txBegin cfgSmall ({} : AcquireEnv)
      { idle := 1, live := 1, borrowed := 0, is_initialized := true }
      false true true true true true true).2.2
    rfl (by decide) rfl
  exact ⟨(h.2.1 rfl rfl).1, h.2.2.2.2.2⟩

/-- Decidable equality of `Except` results, by cases on the constructors. -/
instance instDecEqExcept {ε α : Type} [DecidableEq ε] [DecidableEq α] :
    DecidableEq (Except ε α)
  | Except.ok a, Except.ok b =>
      decidable_of_iff (a = b)
        ⟨fun h => h ▸ rfl, fun h => Except.ok.inj h⟩
  | Except.ok _, Except.error _ => isFalse (fun h => Except.noConfusion h)
  | Except.error _, Except.ok _ => isFalse (fun h => Except.noConfusion h)
  | Except.error e, Except.error f =>
      decidable_of_iff (e = f)
        ⟨fun h => h ▸ rfl, fun h => Except.error.inj h⟩

/-! ### Router (`features/router.py`) -/

/-- `DatabaseRole` enumeration. -/
inductive DatabaseRole where
  | master
  | replica
  | read_only
  | write_only
  deriving Repr, DecidableEq

/-- `LoadBalanceStrategy` enumeration. -/
inductive LoadBalanceStrategy where
  | round_robin
  | random
  | weighted
  | least_connections
  deriving Repr, DecidableEq

/-- `DatabaseNode` dataclass: one database instance with routing metadata. -/
structure DatabaseNode where
  name : String
  config : DatabaseConfig
  pool : PoolState
  role : DatabaseRole := DatabaseRole.master
  weight : Int := 1
  is_healthy : Bool := true
  connection_count : Int := 0
  deriving Repr, DecidableEq

/-- `DatabaseRouter` state: the name-to-node dict (insertion ordered) and the
per-role round-robin cursor dict. -/
structure DatabaseRouter where
  databases : List (String × DatabaseNode) := []
  current_index : List (DatabaseRole × Nat) := []
  default_strategy : LoadBalanceStrategy := LoadBalanceStrategy.round_robin
  deriving Repr, DecidableEq

/-- Python `str.lower`: lower-case every character. -/
def pyLower (s : String) : String := String.mk (s.data.map Char.toLower)

/-- Dict update (insert-or-replace) on the per-role cursor dict. -/
def dictSet : List (DatabaseRole × Nat) → DatabaseRole → Nat →
    List (DatabaseRole × Nat)
  | [], ρ, v => [(ρ, v)]
  | (k, w) :: rest, ρ, v =>
      if k = ρ then (k, v) :: rest else (k, w) :: dictSet rest ρ v

/-- `DatabaseRouter.get_available_databases`: healthy nodes, optionally
filtered by role, in dict insertion order. -/
def getAvailableDatabases (r : DatabaseRouter) (role : Option DatabaseRole) :
    List DatabaseNode :=
  (r.databases.map Prod.snd).filter
    (fun n => n.is_healthy && match role with
      | none => true
      | some ρ => n.role == ρ)

/-- The round-robin cursor for a role (`self._current_index`, defaulting to 0
when first read). -/
def cursorOf (r : DatabaseRouter) (role : DatabaseRole) : Nat :=
  (r.current_index.lookup role).getD 0

/--
`DatabaseRouter._round_robin_selection`: select `nodes[index % len(nodes)]`
and advance the role's cursor to `(index + 1) % len(nodes)`.  `none` models
the `IndexError`/`ZeroDivisionError` Python raises on an empty node list
(unreachable from `select_database`, which guards against emptiness).
-/
def roundRobinSelection (r : DatabaseRouter) (nodes : List DatabaseNode)
    (role : DatabaseRole) : Option (DatabaseNode × DatabaseRouter) :=
  let index := cursorOf r role
  match nodes.get? (index % nodes.length) with
  | none => none
  | some n =>
      some (n,
        { r with current_index := dictSet r.current_index role ((index + 1) % nodes.length) })

/-- `DatabaseRouter._random_selection`: `random.choice(nodes)`, with the draw
supplied as the oracle `k`; `none` models the `IndexError` on an empty list. -/
def randomSelection (nodes : List DatabaseNode) (k : Nat) :
    Option DatabaseNode :=
  nodes.get? (k % nodes.length)

/-- The accumulation loop of `DatabaseRouter._weighted_selection`: walk the
nodes accumulating weight and return the first node whose cumulative weight
reaches the drawn value, falling back to `nodes[-1]` after the loop. -/
def weightedGo (all : List DatabaseNode) (u : ℚ) :
    ℚ → List DatabaseNode → Option DatabaseNode
  | _, [] => all.getLast?
  | current, n :: rest =>
      if u ≤ current + (n.weight : ℚ) then some n
      else weightedGo all u (current + (n.weight : ℚ)) rest

/-- `DatabaseRouter._weighted_selection` with the uniform draw
`rand_val ∈ [0, Σ weight]` supplied as the oracle `u`. -/
def weightedSelection (nodes : List DatabaseNode) (u : ℚ) :
    Option DatabaseNode :=
  weightedGo nodes u 0 nodes

/-- `DatabaseRouter._least_connections_selection`: Python `min` with a key —
the first node attaining the minimal `connection_count`. -/
def leastConnectionsSelection : List DatabaseNode → Option DatabaseNode
  | [] => none
  | n :: rest =>
      some (rest.foldl
        (fun best m =>
          if m.connection_count < best.connection_count then m else best) n)

/-- The target-role resolution at the head of
`DatabaseRouter.select_database`: an explicit preferred role wins; otherwise
`"write"` (case-insensitive) targets the master; otherwise reads target the
replicas when any healthy replica exists and the master when none does. -/
def resolveTargetRole (r : DatabaseRouter) (operation_type : String)
    (preferred_role : Option DatabaseRole) : DatabaseRole :=
  match preferred_role with
  | some ρ => ρ
  | none =>
      if pyLower operation_type = "write" then DatabaseRole.master
      else if (getAvailableDatabases r (some DatabaseRole.replica)).isEmpty
      then DatabaseRole.master
      else DatabaseRole.replica

/--
The if/elif dispatch at the tail of `DatabaseRouter.select_database`: apply
the effective load-balancing strategy to the candidate set.  `randK`/`randU`
are the oracles feeding the random and weighted strategies; `indexError`
models the Python built-in raised by a selection over an empty candidate
list, unreachable from `select_database` because emptiness has been ruled
out before dispatch.
-/
def applyStrategy (r : DatabaseRouter) (strat : LoadBalanceStrategy)
    (nodes : List DatabaseNode) (role : DatabaseRole) (randK : Nat)
    (randU : ℚ) : Except PyExc (DatabaseNode × DatabaseRouter) :=
  match strat with
  | LoadBalanceStrategy.round_robin =>
      match roundRobinSelection r nodes role with
      | some p => Except.ok p
      | none => Except.error PyExc.indexError
  | LoadBalanceStrategy.random =>
      match randomSelection nodes randK with
      | some n => Except.ok (n, r)
      | none => Except.error PyExc.indexError
  | LoadBalanceStrategy.weighted =>
      match weightedSelection nodes randU with
      | some n => Except.ok (n, r)
      | none => Except.error PyExc.indexError
  | LoadBalanceStrategy.least_connections =>
      match leastConnectionsSelection nodes with
      | some n => Except.ok (n, r)
      | none => Except.error PyExc.indexError

/--
`DatabaseRouter.select_database`: resolve the target role, collect healthy
nodes of that role, fall back to the master role when the set is empty,
raise `NoAvailableDatabaseError` when it is still empty, and otherwise apply
the requested (or default) load-balancing strategy.
-/
def selectDatabase (r : DatabaseRouter) (operation_type : String)
    (strategy : Option LoadBalanceStrategy)
    (preferred_role : Option DatabaseRole) (randK : Nat) (randU : ℚ) :
    Except PyExc (DatabaseNode × DatabaseRouter) :=
  let target_role := resolveTargetRole r operation_type preferred_role
  let a1 := getAvailableDatabases r (some target_role)
  let available :=
    if a1 = [] ∧ target_role ≠ DatabaseRole.master then
      getAvailableDatabases r (some DatabaseRole.master)
    else a1
  if available = [] then Except.error PyExc.noAvailableDatabaseError
  else applyStrategy r (strategy.getD r.default_strategy) available
    target_role randK randU

/-- The candidate set `select_database` dispatches over: healthy nodes of the
resolved target role, with the master nodes as fallback when that set is
empty and the target is not already the master role. -/
def candidateNodes (r : DatabaseRouter) (op : String)
    (pref : Option DatabaseRole) : List DatabaseNode :=
  let t := resolveTargetRole r op pref
  if getAvailableDatabases r (some t) = [] ∧ t ≠ DatabaseRole.master then
    getAvailableDatabases r (some DatabaseRole.master)
  else getAvailableDatabases r (some t)

theorem selectDatabase_eq (r : DatabaseRouter) (op : String)
    (strat : Option LoadBalanceStrategy) (pref : Option DatabaseRole)
    (k : Nat) (u : ℚ) :
    selectDatabase r op strat pref k u =
      if candidateNodes r op pref = [] then
        Except.error PyExc.noAvailableDatabaseError
      else applyStrategy r (strat.getD r.default_strategy)
        (candidateNodes r op pref) (resolveTargetRole r op pref) k u := rfl

/--
The attribute names defined on `AsyncConnectionPool` in
`core/connection.py` (fields assigned in `__init__` plus the methods and the
`stats` property of the class body).  Python attribute access on a pool
object succeeds exactly for these names; in particular there is no
`acquire` attribute.
-/
def asyncConnectionPoolAttrs : List String :=
  ["config", "pool_size", "max_overflow", "_pool", "_current_connections",
   "_is_initialized", "initialize", "_create_connection", "get_connection",
   "_is_connection_valid", "close", "health_check", "stats"]

/--
The body of the per-node `try` in `DatabaseRouter.health_check`:
`async with node.pool.acquire() as conn: ...` — the attribute lookup
`node.pool.acquire` happens first and raises `AttributeError` when the class
defines no such attribute; only then would the round-trip `SELECT 1` probe
run, failing when the backend is down (`backendOk = false`).
-/
def probePool (_node : DatabaseNode) (backendOk : Bool) : Except PyExc Unit :=
  if asyncConnectionPoolAttrs.contains "acquire" then
    if backendOk then Except.ok () else Except.error PyExc.databaseConnectionError
  else Except.error (PyExc.attributeError "acquire")

/--
`DatabaseRouter.health_check`: probe every node inside a `try`/`except`,
set `node.is_healthy` from the outcome, and record the outcome in the
per-name result map.  Total (the `except` swallows every probe failure), so
the call never raises.
-/
def routerHealthCheck (r : DatabaseRouter) (backendOk : String → Bool) :
    List (String × Bool) × DatabaseRouter :=
  let outcome := fun (p : String × DatabaseNode) =>
    match probePool p.2 (backendOk p.1) with
    | Except.ok () => true
    | Except.error _ => false
  (r.databases.map (fun p => (p.1, outcome p)),
   { r with databases :=
      r.databases.map (fun p =>
        (p.1, { p.2 with is_healthy := outcome p })) })

/--
C5.  Code-bug exhibit for `DatabaseRouter.health_check`: the call never
raises and returns a name-to-boolean map with an entry for every registered
node (first conjunct), but because the probe body calls
`node.pool.acquire()` — and `AsyncConnectionPool` defines no `acquire`
attribute (its accessor is `get_connection`) — the `AttributeError` is
swallowed by the per-node `except` and every node is marked unhealthy and
reported `False`, no matter whether its backend would answer the probe.
-/
theorem router_health_check_marks_every_node_unhealthy
    (r : DatabaseRouter) (backendOk : String → Bool) :
    ((routerHealthCheck r backendOk).1.map Prod.fst =
      r.databases.map Prod.fst) ∧
    (∀ p ∈ (routerHealthCheck r backendOk).1, p.2 = false) ∧
    (∀ q ∈ (routerHealthCheck r backendOk).2.databases,
      q.2.is_healthy = false) := by
  have hmem : ¬ ("acquire" ∈ asyncConnectionPoolAttrs) := by decide
  refine ⟨?_, ?_, ?_⟩
  · simp [routerHealthCheck]
  · intro p hp
    simp only [routerHealthCheck] at hp
    rcases List.mem_map.mp hp with ⟨x, _, hxe⟩
    rw [← hxe]
    simp [probePool, hmem]
  · intro q hq
    simp only [routerHealthCheck] at hq
    rcases List.mem_map.mp hq with ⟨x, _, hxe⟩
    rw [← hxe]
    simp [probePool, hmem]

/-- A concrete healthy master node and a one-node router for witnesses. -/
def node1 : DatabaseNode :=
  { name := "db1", config := cfgSmall, pool := initialPoolState,
    role := DatabaseRole.master, weight := 1, is_healthy := true,
    connection_count := 0 }

/-- One-node router holding `node1`. -/
def router1 : DatabaseRouter := { databases := [("db1", node1)] }

/-- Closed witness for `router_health_check_marks_every_node_unhealthy`:
even with a backend that answers the probe, the single node is reported
unhealthy. -/
theorem router_health_check_witness :
    ((routerHealthCheck router1 (fun _ => true)).1.map Prod.fst =
      router1.databases.map Prod.fst) ∧
    (("db1", false) ∈ (routerHealthCheck router1 (fun _ => true)).1 ∧
      (("db1", false) : String × Bool).2 = false) := by
  have h := router_health_check_marks_every_node_unhealthy router1
    (fun _ => true)
  refine ⟨h.1, ?_, ?_⟩
  · decide
  · exact h.2.1 ("db1", false) (by decide)

/-! ### MultiDatabaseManager (`features/router.py`) -/

/-- In-place mutation `node.connection_count += delta` of the node stored
under key `name` (nodes are shared by reference with the router dict, so the
dict sees the new count). -/
def bumpCount (dbs : List (String × DatabaseNode)) (name : String)
    (delta : Int) : List (String × DatabaseNode) :=
  dbs.map (fun p =>
    if p.1 = name then
      (p.1, { p.2 with connection_count := p.2.connection_count + delta })
    else p)

/-- The `connection_count` of the node registered under `nm`. -/
def nodeCount (r : DatabaseRouter) (nm : String) : Option Int :=
  (r.databases.lookup nm).map (fun n => n.connection_count)

theorem roundRobinSelection_databases (r : DatabaseRouter)
    (nodes : List DatabaseNode) (role : DatabaseRole)
    (p : DatabaseNode × DatabaseRouter)
    (h : roundRobinSelection r nodes role = some p) :
    p.2.databases = r.databases := by
  simp only [roundRobinSelection] at h
  split at h
  · exact absurd h (by simp)
  · obtain rfl := Option.some.inj h
    rfl

theorem applyStrategy_databases (r : DatabaseRouter)
    (strat : LoadBalanceStrategy) (nodes : List DatabaseNode)
    (role : DatabaseRole) (k : Nat) (u : ℚ) (n : DatabaseNode)
    (r1 : DatabaseRouter)
    (h : applyStrategy r strat nodes role k u = Except.ok (n, r1)) :
    r1.databases = r.databases := by
  cases strat <;> simp only [applyStrategy] at h <;> split at h
  all_goals
    first
      | (simp at h
         done)
      | (obtain rfl := Except.ok.inj h
         exact roundRobinSelection_databases _ _ _ _ (by assumption))
      | (have h2 : r = r1 := congrArg Prod.snd (Except.ok.inj h)
         rw [← h2])

theorem selectDatabase_databases (r : DatabaseRouter) (op : String)
    (strat : Option LoadBalanceStrategy) (pref : Option DatabaseRole)
    (k : Nat) (u : ℚ) (n : DatabaseNode) (r1 : DatabaseRouter)
    (h : selectDatabase r op strat pref k u = Except.ok (n, r1)) :
    r1.databases = r.databases := by
  rw [selectDatabase_eq] at h
  split at h
  · exact absurd h (by simp)
  · exact applyStrategy_databases _ _ _ _ _ _ _ _ h

/--
`MultiDatabaseManager.get_connection` (router.py lines 274-311): resolve the
node (explicit name, or automatic selection through the router), increment
its `connection_count`, then call `node.pool.acquire()`; the `except` block
decrements the counter again and wraps the failure in
`DatabaseConnectionError`.  The `finally` block is `pass` (it decrements
nothing).  Would the `acquire` attribute exist, the connection would be
returned with the counter left incremented.
-/
def multiGetConnection (r : DatabaseRouter) (operation_type : String)
    (database_name : Option String) (strategy : Option LoadBalanceStrategy)
    (randK : Nat) (randU : ℚ) : Except PyExc Unit × DatabaseRouter :=
  let sel : Except PyExc (DatabaseNode × DatabaseRouter) :=
    match database_name with
    | some name =>
        match r.databases.lookup name with
        | none => Except.error PyExc.databaseRouterError
        | some node =>
            if node.is_healthy then Except.ok (node, r)
            else Except.error PyExc.databaseConnectionError
    | none => selectDatabase r operation_type strategy none randK randU
  match sel with
  | Except.error e => (Except.error e, r)
  | Except.ok (node, r1) =>
      let r2 : DatabaseRouter :=
        { r1 with databases := bumpCount r1.databases node.name 1 }
      if asyncConnectionPoolAttrs.contains "acquire" then (Except.ok (), r2)
      else
        (Except.error PyExc.databaseConnectionError,
         { r2 with databases := bumpCount r2.databases node.name (-1) })

theorem bumpCount_cons (a : String) (b : DatabaseNode)
    (rest : List (String × DatabaseNode)) (name : String) (delta : Int) :
    bumpCount ((a, b) :: rest) name delta =
      (a, if a = name
          then { b with connection_count := b.connection_count + delta }
          else b) :: bumpCount rest name delta := by
  by_cases h : a = name <;> simp [bumpCount, h]

theorem lookup_bump_bump (dbs : List (String × DatabaseNode))
    (name nm : String) :
    ((bumpCount (bumpCount dbs name 1) name (-1)).lookup nm).map
      (fun x => x.connection_count) =
    (dbs.lookup nm).map (fun x => x.connection_count) := by
  induction dbs with
  | nil => rfl
  | cons p rest ih =>
    rcases p with ⟨a, b⟩
    rw [bumpCount_cons, bumpCount_cons]
    by_cases hnm : (nm == a) = true
    · by_cases h : a = name
      · subst h
        simp [List.lookup, hnm]
      · simp [List.lookup, hnm, h]
    · simp [List.lookup, hnm, ih]

/--
C6.  Code-bug exhibit for `MultiDatabaseManager.get_connection`: the node's
in-flight counter is incremented on entry, but the call then invokes
`node.pool.acquire()`, an attribute `AsyncConnectionPool` does not define, so
every call fails with `DatabaseConnectionError` (never yielding a
connection) after the `except` block has decremented the counter back; no
release path decrements the counter (the `finally` block is `pass`), so the
claim's acquire/release counter round-trip never happens — every call leaves
every node's counter exactly as it was.
-/
theorem multi_get_connection_never_succeeds_and_counter_restored
    (r : DatabaseRouter) (op : String) (dbName : Option String)
    (strat : Option LoadBalanceStrategy) (k : Nat) (u : ℚ) :
    (multiGetConnection r op dbName strat k u).1 ≠ Except.ok () ∧
    (∀ nm, nodeCount (multiGetConnection r op dbName strat k u).2 nm =
      nodeCount r nm) := by
  have hmem : ¬ ("acquire" ∈ asyncConnectionPoolAttrs) := by decide
  rcases dbName with _ | name
  · rcases hs : selectDatabase r op strat none k u with e | ⟨node, r1⟩
    · constructor
      · simp [multiGetConnection, hs]
      · intro nm
        simp [multiGetConnection, hs]
    · have hdbs := selectDatabase_databases r op strat none k u node r1 hs
      constructor
      · simp [multiGetConnection, hs, hmem]
      · intro nm
        simp only [multiGetConnection, hs]
        simp only [nodeCount]
        simp [hmem, lookup_bump_bump, hdbs]
  · rcases hl : r.databases.lookup name with _ | node
    · constructor
      · simp [multiGetConnection, hl]
      · intro nm
        simp [multiGetConnection, hl]
    · cases hh : node.is_healthy
      · constructor
        · simp [multiGetConnection, hl, hh]
        · intro nm
          simp [multiGetConnection, hl, hh]
      · constructor
        · simp [multiGetConnection, hl, hh, hmem]
        · intro nm
          simp only [multiGetConnection, hl, hh]
          simp only [nodeCount]
          simp [hmem, lookup_bump_bump]

/-- Closed witness for
`multi_get_connection_never_succeeds_and_counter_restored`. -/
theorem multi_get_connection_witness :
    (multiGetConnection router1 "read" none none 0 0).1 ≠ Except.ok () ∧
    nodeCount (multiGetConnection router1 "read" none none 0 0).2 "db1" =
      nodeCount router1 "db1" := by
  have h := multi_get_connection_never_succeeds_and_counter_restored
    router1 "read" none none 0 0
  exact ⟨h.1, h.2 "db1"⟩

/-! ### Claim C4: role resolution and master fallback in select_database -/

theorem mem_getAvailableDatabases (r : DatabaseRouter) (ρ : DatabaseRole)
    (n : DatabaseNode) (h : n ∈ getAvailableDatabases r (some ρ)) :
    n.is_healthy = true ∧ n.role = ρ := by
  unfold getAvailableDatabases at h
  rcases List.mem_filter.mp h with ⟨-, hpred⟩
  simpa using hpred

theorem roundRobinSelection_mem (r : DatabaseRouter)
    (nodes : List DatabaseNode) (role : DatabaseRole)
    (p : DatabaseNode × DatabaseRouter)
    (h : roundRobinSelection r nodes role = some p) : p.1 ∈ nodes := by
  simp only [roundRobinSelection] at h
  split at h
  · exact absurd h (by simp)
  · obtain rfl := Option.some.inj h
    exact List.get?_mem (by assumption)

theorem roundRobinSelection_isSome (r : DatabaseRouter)
    (nodes : List DatabaseNode) (role : DatabaseRole) (hne : nodes ≠ []) :
    (roundRobinSelection r nodes role).isSome := by
  have hlen : 0 < nodes.length := List.length_pos.mpr hne
  simp only [roundRobinSelection]
  rw [List.get?_eq_get (Nat.mod_lt _ hlen)]
  rfl

theorem randomSelection_isSome (nodes : List DatabaseNode) (k : Nat)
    (hne : nodes ≠ []) : (randomSelection nodes k).isSome := by
  have hlen : 0 < nodes.length := List.length_pos.mpr hne
  simp only [randomSelection]
  rw [List.get?_eq_get (Nat.mod_lt _ hlen)]
  rfl

theorem weightedGo_mem (all : List DatabaseNode) (u : ℚ)
    (l : List DatabaseNode) :
    ∀ (cur : ℚ) (n : DatabaseNode),
      weightedGo all u cur l = some n → n ∈ l ∨ n ∈ all := by
  induction l with
  | nil =>
    intro cur n h
    right
    have hmem : n ∈ all.getLast? := by simpa [weightedGo] using h
    rcases List.mem_getLast?_eq_getLast hmem with ⟨hh, rfl⟩
    exact List.getLast_mem hh
  | cons m rest ih =>
    intro cur n h
    simp only [weightedGo] at h
    split at h
    · obtain rfl := Option.some.inj h
      exact Or.inl (List.mem_cons_self _ _)
    · rcases ih _ n h with h1 | h1
      · exact Or.inl (List.mem_cons_of_mem _ h1)
      · exact Or.inr h1

theorem weightedSelection_mem (nodes : List DatabaseNode) (u : ℚ)
    (n : DatabaseNode) (h : weightedSelection nodes u = some n) :
    n ∈ nodes := by
  rcases weightedGo_mem nodes u nodes 0 n h with h1 | h1 <;> exact h1

theorem weightedGo_isSome (all : List DatabaseNode) (u : ℚ) (hne : all ≠ [])
    (l : List DatabaseNode) : ∀ (cur : ℚ), (weightedGo all u cur l).isSome := by
  induction l with
  | nil =>
    intro _
    simpa [weightedGo, List.getLast?_isSome] using hne
  | cons m rest ih =>
    intro cur
    simp only [weightedGo]
    split
    · rfl
    · exact ih _

theorem weightedSelection_isSome (nodes : List DatabaseNode) (u : ℚ)
    (hne : nodes ≠ []) : (weightedSelection nodes u).isSome :=
  weightedGo_isSome nodes u hne nodes 0

theorem leastConnections_foldl_mem (rest : List DatabaseNode) :
    ∀ m : DatabaseNode,
      rest.foldl (fun best x =>
        if x.connection_count < best.connection_count then x else best) m ∈
        m :: rest := by
  induction rest with
  | nil =>
    intro m
    exact List.mem_cons_self _ _
  | cons x xs ih =>
    intro m
    simp only [List.foldl_cons]
    rcases List.mem_cons.mp
        (ih (if x.connection_count < m.connection_count then x else m)) with
      h1 | h1
    · rw [h1]
      by_cases hc : x.connection_count < m.connection_count
      · rw [if_pos hc]
        exact List.mem_cons_of_mem _ (List.mem_cons_self _ _)
      · rw [if_neg hc]
        exact List.mem_cons_self _ _
    · exact List.mem_cons_of_mem _ (List.mem_cons_of_mem _ h1)

theorem leastConnectionsSelection_mem (nodes : List DatabaseNode)
    (n : DatabaseNode) (h : leastConnectionsSelection nodes = some n) :
    n ∈ nodes := by
  cases nodes with
  | nil => exact absurd h (by simp [leastConnectionsSelection])
  | cons m rest =>
    simp only [leastConnectionsSelection] at h
    obtain rfl := Option.some.inj h
    exact leastConnections_foldl_mem rest m

theorem leastConnectionsSelection_isSome (nodes : List DatabaseNode)
    (hne : nodes ≠ []) : (leastConnectionsSelection nodes).isSome := by
  cases nodes with
  | nil => exact absurd rfl hne
  | cons m rest => rfl

theorem applyStrategy_ok_mem (r : DatabaseRouter)
    (strat : LoadBalanceStrategy) (nodes : List DatabaseNode)
    (role : DatabaseRole) (k : Nat) (u : ℚ) (n : DatabaseNode)
    (r1 : DatabaseRouter)
    (h : applyStrategy r strat nodes role k u = Except.ok (n, r1)) :
    n ∈ nodes := by
  cases strat with
  | round_robin =>
    simp only [applyStrategy] at h
    split at h
    · obtain rfl := Except.ok.inj h
      exact roundRobinSelection_mem _ _ _ _ (by assumption)
    · exact absurd h (by simp)
  | random =>
    simp only [applyStrategy] at h
    split at h
    · rename_i m heq
      obtain rfl : m = n := congrArg Prod.fst (Except.ok.inj h)
      exact List.get?_mem heq
    · exact absurd h (by simp)
  | weighted =>
    simp only [applyStrategy] at h
    split at h
    · rename_i m heq
      obtain rfl : m = n := congrArg Prod.fst (Except.ok.inj h)
      exact weightedSelection_mem _ _ _ heq
    · exact absurd h (by simp)
  | least_connections =>
    simp only [applyStrategy] at h
    split at h
    · rename_i m heq
      obtain rfl : m = n := congrArg Prod.fst (Except.ok.inj h)
      exact leastConnectionsSelection_mem _ _ heq
    · exact absurd h (by simp)

theorem applyStrategy_ne_error (r : DatabaseRouter)
    (strat : LoadBalanceStrategy) (nodes : List DatabaseNode)
    (role : DatabaseRole) (k : Nat) (u : ℚ) (hne : nodes ≠ []) (e : PyExc) :
    applyStrategy r strat nodes role k u ≠ Except.error e := by
  intro h
  cases strat <;> simp only [applyStrategy] at h <;> split at h <;>
    first
      | (simp at h
         done)
      | (rename_i heq
         first
           | (have hs := roundRobinSelection_isSome r nodes role hne
              rw [heq] at hs
              simp at hs)
           | (have hs := randomSelection_isSome nodes k hne
              rw [heq] at hs
              simp at hs)
           | (have hs := weightedSelection_isSome nodes u hne
              rw [heq] at hs
              simp at hs)
           | (have hs := leastConnectionsSelection_isSome nodes hne
              rw [heq] at hs
              simp at hs))

theorem candidateNodes_empty_iff (r : DatabaseRouter) (op : String)
    (pref : Option DatabaseRole) :
    candidateNodes r op pref = [] ↔
      (getAvailableDatabases r (some (resolveTargetRole r op pref)) = [] ∧
       getAvailableDatabases r (some DatabaseRole.master) = []) := by
  unfold candidateNodes
  by_cases hc : getAvailableDatabases r
      (some (resolveTargetRole r op pref)) = [] ∧
      resolveTargetRole r op pref ≠ DatabaseRole.master
  · rw [if_pos hc]
    exact ⟨fun hm => ⟨hc.1, hm⟩, fun hb => hb.2⟩
  · rw [if_neg hc]
    constructor
    · intro ha
      refine ⟨ha, ?_⟩
      have ht : resolveTargetRole r op pref = DatabaseRole.master := by
        by_contra hnt
        exact hc ⟨ha, hnt⟩
      rw [← ht]
      exact ha
    · intro hb
      exact hb.1

theorem candidateNodes_mem (r : DatabaseRouter) (op : String)
    (pref : Option DatabaseRole) (n : DatabaseNode)
    (h : n ∈ candidateNodes r op pref) :
    n.is_healthy = true ∧
      (n.role = resolveTargetRole r op pref ∨
       n.role = DatabaseRole.master) := by
  simp only [candidateNodes] at h
  split at h
  · rcases mem_getAvailableDatabases _ _ _ h with ⟨h1, h2⟩
    exact ⟨h1, Or.inr h2⟩
  · rcases mem_getAvailableDatabases _ _ _ h with ⟨h1, h2⟩
    exact ⟨h1, Or.inl h2⟩

/--
C4.  `DatabaseRouter.select_database` role resolution: an explicit preferred
role wins; a write operation resolves to the master role; a read operation
resolves to the replica role exactly when a healthy replica exists and to
master otherwise; the call fails — and fails specifically with
`NoAvailableDatabaseError` — exactly when the resolved role has no healthy
node and neither does the master-role retry; a successful call returns a
healthy node whose role is the resolved role or (via the fallback) master.
In particular a write with no healthy master fails with
`NoAvailableDatabaseError` whatever replicas are healthy, and a successful
write selection returns a healthy master node.
-/
theorem select_database_resolution (r : DatabaseRouter) (op : String)
    (strat : Option LoadBalanceStrategy) (pref : Option DatabaseRole)
    (k : Nat) (u : ℚ) :
    (∀ ρ, resolveTargetRole r op (some ρ) = ρ) ∧
    (pyLower op = "write" →
      resolveTargetRole r op none = DatabaseRole.master) ∧
    (pyLower op ≠ "write" →
      resolveTargetRole r op none =
        if (getAvailableDatabases r (some DatabaseRole.replica)).isEmpty
        then DatabaseRole.master else DatabaseRole.replica) ∧
    (∀ e, selectDatabase r op strat pref k u = Except.error e →
      e = PyExc.noAvailableDatabaseError ∧
      getAvailableDatabases r (some (resolveTargetRole r op pref)) = [] ∧
      getAvailableDatabases r (some DatabaseRole.master) = []) ∧
    (getAvailableDatabases r (some (resolveTargetRole r op pref)) = [] →
      getAvailableDatabases r (some DatabaseRole.master) = [] →
      selectDatabase r op strat pref k u =
        Except.error PyExc.noAvailableDatabaseError) ∧
    (∀ n r1, selectDatabase r op strat pref k u = Except.ok (n, r1) →
      n.is_healthy = true ∧
      (n.role = resolveTargetRole r op pref ∨
       n.role = DatabaseRole.master)) ∧
    (pyLower op = "write" → pref = none →
      getAvailableDatabases r (some DatabaseRole.master) = [] →
      selectDatabase r op strat pref k u =
        Except.error PyExc.noAvailableDatabaseError) ∧
    (pyLower op = "write" → pref = none → ∀ n r1,
      selectDatabase r op strat pref k u = Except.ok (n, r1) →
      n.role = DatabaseRole.master ∧ n.is_healthy = true) := by
  refine ⟨fun ρ => rfl, ?_, ?_, ?_, ?_, ?_, ?_, ?_⟩
  · intro hw
    simp [resolveTargetRole, hw]
  · intro hw
    simp [resolveTargetRole, hw]
  · intro e he
    rw [selectDatabase_eq] at he
    split at he
    · obtain rfl := Except.error.inj he
      obtain ⟨h1, h2⟩ :=
        (candidateNodes_empty_iff r op pref).mp (by assumption)
      exact ⟨rfl, h1, h2⟩
    · exact absurd he (applyStrategy_ne_error r _ _ _ k u (by assumption) e)
  · intro h1 h2
    rw [selectDatabase_eq,
      if_pos ((candidateNodes_empty_iff r op pref).mpr ⟨h1, h2⟩)]
  · intro n r1 he
    rw [selectDatabase_eq] at he
    split at he
    · exact absurd he (by simp)
    · exact candidateNodes_mem r op pref n
        (applyStrategy_ok_mem _ _ _ _ _ _ _ _ he)
  · intro hw hp h2
    subst hp
    have ht : resolveTargetRole r op none = DatabaseRole.master := by
      simp [resolveTargetRole, hw]
    rw [selectDatabase_eq,
      if_pos ((candidateNodes_empty_iff r op none).mpr
        ⟨by rw [ht]; exact h2, h2⟩)]
  · intro hw hp n r1 he
    subst hp
    have ht : resolveTargetRole r op none = DatabaseRole.master := by
      simp [resolveTargetRole, hw]
    rw [selectDatabase_eq] at he
    split at he
    · exact absurd he (by simp)
    · rcases candidateNodes_mem r op none n
        (applyStrategy_ok_mem _ _ _ _ _ _ _ _ he) with ⟨hh, hr | hr⟩
      · rw [ht] at hr
        exact ⟨hr, hh⟩
      · exact ⟨hr, hh⟩

/-- A healthy master node, a healthy replica node, and two concrete routers
for witnesses: one with both roles, one with only the replica. -/
def nodeMaster : DatabaseNode :=
  { name := "m1", config := cfgSmall, pool := initialPoolState,
    role := DatabaseRole.master }

/-- A healthy replica node for witnesses. -/
def nodeReplica : DatabaseNode :=
  { name := "r1", config := cfgSmall, pool := initialPoolState,
    role := DatabaseRole.replica }

/-- Router with a healthy master and a healthy replica. -/
def router2 : DatabaseRouter :=
  { databases := [("m1", nodeMaster), ("r1", nodeReplica)] }

/-- Router with only a healthy replica (no master at all). -/
def routerReplicaOnly : DatabaseRouter :=
  { databases := [("r1", nodeReplica)] }

/-- Closed witness for `select_database_resolution`: a write with no healthy
master fails with `NoAvailableDatabaseError`; with both roles healthy the
returned node is a healthy master. -/
theorem select_database_resolution_witness :
    (selectDatabase routerReplicaOnly "write" none none 0 0 =
      Except.error PyExc.noAvailableDatabaseError) ∧
    (nodeMaster.role = DatabaseRole.master ∧
      nodeMaster.is_healthy = true) := by
  have h1 := select_database_resolution routerReplicaOnly "write" none none 0 0
  have h2 := select_database_resolution router2 "write" none none 0 0
  refine ⟨h1.2.2.2.2.2.2.1 (by decide) rfl (by decide), ?_⟩
  exact h2.2.2.2.2.2.2.2 (by decide) rfl nodeMaster
    { router2 with current_index := [(DatabaseRole.master, 0)] } (by decide)

/-! ### Claim C7: round-robin cycling -/

/-- Iterated `_round_robin_selection` for a fixed candidate list and role:
the router state after `k` consecutive selections (the per-role cursor is the
only state that changes, and it persists from call to call). -/
def rrIter (nodes : List DatabaseNode) (role : DatabaseRole)
    (r : DatabaseRouter) : Nat → DatabaseRouter
  | 0 => r
  | Nat.succ k =>
      match roundRobinSelection (rrIter nodes role r k) nodes role with
      | some p => p.2
      | none => rrIter nodes role r k

/-- The node returned by the `k`-th consecutive round-robin selection
(0-indexed). -/
def rrPick (nodes : List DatabaseNode) (role : DatabaseRole)
    (r : DatabaseRouter) (k : Nat) : Option DatabaseNode :=
  (roundRobinSelection (rrIter nodes role r k) nodes role).map Prod.fst

theorem cursorOf_dictSet (ci : List (DatabaseRole × Nat))
    (role : DatabaseRole) (v : Nat) :
    (List.lookup role (dictSet ci role v)).getD 0 = v := by
  induction ci with
  | nil => simp [dictSet, List.lookup]
  | cons p rest ih =>
    rcases p with ⟨kk, w⟩
    by_cases h : kk = role
    · subst h
      simp [dictSet, List.lookup]
    · have hb : (role == kk) = false := by
        simp [Ne.symm h]
      simp [dictSet, List.lookup, h, hb, ih]

theorem cursorOf_update (r : DatabaseRouter) (role : DatabaseRole) (v : Nat) :
    cursorOf
      { r with current_index := dictSet r.current_index role v } role = v := by
  unfold cursorOf
  exact cursorOf_dictSet r.current_index role v

theorem roundRobinSelection_closed (r : DatabaseRouter)
    (nodes : List DatabaseNode) (role : DatabaseRole)
    (hlen : 0 < nodes.length) :
    roundRobinSelection r nodes role =
      some (nodes.get ⟨cursorOf r role % nodes.length, Nat.mod_lt _ hlen⟩,
        { r with current_index := dictSet r.current_index role ((cursorOf r role + 1) % nodes.length) }) := by
  simp only [roundRobinSelection]
  rw [List.get?_eq_get (Nat.mod_lt _ hlen)]

theorem cursorOf_rrIter (nodes : List DatabaseNode) (role : DatabaseRole)
    (r : DatabaseRouter) (hlen : 0 < nodes.length) :
    ∀ k, cursorOf (rrIter nodes role r (k + 1)) role =
      (cursorOf r role + (k + 1)) % nodes.length := by
  intro k
  induction k with
  | zero =>
    simp only [rrIter]
    rw [roundRobinSelection_closed _ _ _ hlen]
    exact cursorOf_update r role _
  | succ k ih =>
    have hstep : rrIter nodes role r (k + 1 + 1) =
        { rrIter nodes role r (k + 1) with current_index := dictSet (rrIter nodes role r (k + 1)).current_index role ((cursorOf (rrIter nodes role r (k + 1)) role + 1) % nodes.length) } := by
      simp only [rrIter]
      rw [roundRobinSelection_closed _ _ _ hlen]
    rw [hstep, cursorOf_update, ih, Nat.mod_add_mod]
    congr 1

theorem rrPick_closed (nodes : List DatabaseNode) (role : DatabaseRole)
    (r : DatabaseRouter) (hlen : 0 < nodes.length) :
    ∀ k, rrPick nodes role r k =
      nodes.get? ((cursorOf r role + k) % nodes.length) := by
  intro k
  cases k with
  | zero =>
    unfold rrPick
    simp only [rrIter]
    rw [roundRobinSelection_closed _ _ _ hlen]
    simp only [Option.map_some']
    rw [← List.get?_eq_get (Nat.mod_lt _ hlen)]
    norm_num
  | succ k =>
    unfold rrPick
    rw [roundRobinSelection_closed _ _ _ hlen]
    simp only [Option.map_some']
    rw [← List.get?_eq_get (Nat.mod_lt _ hlen)]
    rw [cursorOf_rrIter nodes role r hlen k, Nat.mod_mod_of_dvd _ dvd_rfl]

/--
C7.  Iterated `_round_robin_selection` over a fixed list of `N` candidate
nodes: the `k`-th consecutive selection returns
`nodes[(c + k) % N]` where `c` is the initial per-role cursor (first
conjunct); the index map `k ↦ (c + k) % N` is injective below `N` (no node
repeats within the first `N` selections) and reaches every index below `N`
(all `N` nodes are visited); and the cursor advances by exactly one modulo
`N` on every selection, persisting across calls (last conjunct).
-/
theorem round_robin_cycles (nodes : List DatabaseNode) (role : DatabaseRole)
    (r : DatabaseRouter) (hne : nodes ≠ []) :
    (∀ k, rrPick nodes role r k =
      nodes.get? ((cursorOf r role + k) % nodes.length)) ∧
    (∀ i j, i < nodes.length → j < nodes.length →
      (cursorOf r role + i) % nodes.length =
        (cursorOf r role + j) % nodes.length → i = j) ∧
    (∀ m, m < nodes.length → ∃ k, k < nodes.length ∧
      (cursorOf r role + k) % nodes.length = m) ∧
    (∀ k, cursorOf (rrIter nodes role r (k + 1)) role =
      (cursorOf r role + (k + 1)) % nodes.length) := by
  have hlen : 0 < nodes.length := List.length_pos.mpr hne
  refine ⟨rrPick_closed nodes role r hlen, ?_, ?_,
    cursorOf_rrIter nodes role r hlen⟩
  · intro i j hi hj hij
    have hmod : i % nodes.length = j % nodes.length :=
      Nat.ModEq.add_left_cancel' (cursorOf r role) hij
    rwa [Nat.mod_eq_of_lt hi, Nat.mod_eq_of_lt hj] at hmod
  · intro m hm
    have hinj : Function.Injective (fun i : Fin nodes.length =>
        (⟨(cursorOf r role + i) % nodes.length,
          Nat.mod_lt _ hlen⟩ : Fin nodes.length)) := by
      intro i j hij
      have hv := congrArg Fin.val hij
      have hmod : (i : Nat) % nodes.length = (j : Nat) % nodes.length :=
        Nat.ModEq.add_left_cancel' (cursorOf r role) hv
      exact Fin.ext
        (by rwa [Nat.mod_eq_of_lt i.isLt, Nat.mod_eq_of_lt j.isLt] at hmod)
    obtain ⟨k, hk⟩ := Finite.injective_iff_surjective.mp hinj ⟨m, hm⟩
    exact ⟨k, k.isLt, congrArg Fin.val hk⟩

/-- Closed witness for `round_robin_cycles`: on a two-node list the second
selection picks index `(c+1) % 2` and index 1 is reached within the first
two selections. -/
theorem round_robin_cycles_witness :
    (rrPick [nodeMaster, nodeReplica] DatabaseRole.master router2 1 =
      [nodeMaster, nodeReplica].get?
        ((cursorOf router2 DatabaseRole.master + 1) %
          [nodeMaster, nodeReplica].length)) ∧
    (∃ k, k < [nodeMaster, nodeReplica].length ∧
      (cursorOf router2 DatabaseRole.master + k) %
        [nodeMaster, nodeReplica].length = 1) := by
  have h := round_robin_cycles [nodeMaster, nodeReplica] DatabaseRole.master
    router2 (by decide)
  exact ⟨h.1 1, h.2.2.1 1 (by decide)⟩

/-! ### Environment validation (`utils/env_validator.py`) and configuration
loading (`config/settings.py`) -/

/-- `EnvVarType` enumeration. -/
inductive EnvVarType where
  | string
  | integer
  | float
  | boolean
  deriving Repr, DecidableEq

/-- A Python value as it occurs in schema defaults and validated results:
the environment itself only yields strings, defaults may be strings or
ints. -/
inductive PyVal where
  | str (s : String)
  | int (n : Int)
  | float (q : ℚ)
  | bool (b : Bool)
  deriving Repr, DecidableEq

/-- One entry of an env-schema dict: `type` (defaulting to STRING),
`required` (defaulting to False), optional `default`, optional `min`/`max`
bounds, optional `enum` of allowed strings.  The `description` key has no
behavior and is omitted. -/
structure EnvVarSpec where
  type : EnvVarType := EnvVarType.string
  required : Bool := false
  default : Option PyVal := none
  min : Option Int := none
  max : Option Int := none
  enum : Option (List String) := none
  deriving Repr, DecidableEq

/-- Strip leading and trailing whitespace (Python `str.strip`),
character-wise. -/
def pyStripChars (l : List Char) : List Char :=
  ((l.dropWhile Char.isWhitespace).reverse.dropWhile Char.isWhitespace).reverse

/-- Python `int(str)`: optional surrounding whitespace, an optional single
sign, then one or more decimal digits; anything else raises `ValueError`. -/
def parsePyInt (s : String) : Option Int :=
  let t := pyStripChars s.data
  let core := match t with
    | c :: rest => if c = '-' ∨ c = '+' then rest else t
    | [] => t
  let neg := match t with
    | c :: _ => c == '-'
    | [] => false
  if core ≠ [] ∧ core.all Char.isDigit then
    let v : Nat := core.foldl (fun a c => a * 10 + (c.toNat - 48)) 0
    some (if neg then -(v : Int) else (v : Int))
  else none

/-- Python `float(str)` restricted to plain decimal literals
(`[+-]digits[.digits]`), the only shapes this repository can feed it; other
accepted Python spellings (exponents, `inf`, `nan`) do not occur here. -/
def parsePyFloat (s : String) : Option ℚ :=
  let t := pyStripChars s.data
  let core := match t with
    | c :: rest => if c = '-' ∨ c = '+' then rest else t
    | [] => t
  let neg := match t with
    | c :: _ => c == '-'
    | [] => false
  let intPart := core.takeWhile (fun c => c ≠ '.')
  let rest := core.drop intPart.length
  let frac := rest.drop 1
  if (intPart ≠ [] ∨ frac ≠ []) ∧ intPart.all Char.isDigit ∧
      frac.all Char.isDigit ∧ rest.length ≤ frac.length + 1 then
    let ip : ℚ := (intPart.foldl (fun a c => a * 10 + (c.toNat - 48)) 0 : Nat)
    let fp : ℚ :=
      ((frac.foldl (fun a c => a * 10 + (c.toNat - 48)) 0 : Nat) : ℚ) /
        ((10 : ℚ) ^ frac.length)
    some (if neg then -(ip + fp) else ip + fp)
  else none

/-- Python `int(value)` on the value shapes the validator can see (strings
from the environment, int/str defaults, bools; floats truncate toward
zero). -/
def pyToInt : PyVal → Option Int
  | PyVal.str s => parsePyInt s
  | PyVal.int n => some n
  | PyVal.float q => some (q.num.tdiv (q.den : Int))
  | PyVal.bool b => some (if b then 1 else 0)

/-- Python `float(value)` on the same value shapes. -/
def pyToFloat : PyVal → Option ℚ
  | PyVal.str s => parsePyFloat s
  | PyVal.int n => some (n : ℚ)
  | PyVal.float q => some q
  | PyVal.bool b => some (if b then 1 else 0)

/-- `SimpleEnvValidator._validate_string`: an `isinstance(value, str)` check
followed by the optional enum-membership check. -/
def validateString (v : PyVal) (spec : EnvVarSpec) : Except PyExc PyVal :=
  match v with
  | PyVal.str s =>
      match spec.enum with
      | some allowed =>
          if s ∈ allowed then Except.ok (PyVal.str s)
          else Except.error (PyExc.valueError "值不在允许的枚举值中")
      | none => Except.ok (PyVal.str s)
  | _ => Except.error (PyExc.valueError "应为字符串类型")

/-- `SimpleEnvValidator._validate_integer`: `int(value)` then the optional
min/max checks, in that order. -/
def validateInteger (v : PyVal) (spec : EnvVarSpec) : Except PyExc PyVal :=
  match pyToInt v with
  | none => Except.error (PyExc.valueError "无法转换为整数")
  | some n =>
      if spec.min.any (fun lo => decide (n < lo)) then
        Except.error (PyExc.valueError "值不能小于最小值")
      else if spec.max.any (fun hi => decide (hi < n)) then
        Except.error (PyExc.valueError "值不能大于最大值")
      else Except.ok (PyVal.int n)

/-- `SimpleEnvValidator._validate_float`: `float(value)` then the optional
min/max checks. -/
def validateFloat (v : PyVal) (spec : EnvVarSpec) : Except PyExc PyVal :=
  match pyToFloat v with
  | none => Except.error (PyExc.valueError "无法转换为浮点数")
  | some q =>
      if spec.min.any (fun lo => decide (q < (lo : ℚ))) then
        Except.error (PyExc.valueError "值不能小于最小值")
      else if spec.max.any (fun hi => decide ((hi : ℚ) < q)) then
        Except.error (PyExc.valueError "值不能大于最大值")
      else Except.ok (PyVal.float q)

/-- `SimpleEnvValidator._validate_boolean`: `value.lower()` — an
`AttributeError` (not caught by the `except ValueError`) when the value is
not a string — then membership in the true/false spelling sets. -/
def validateBoolean (v : PyVal) (_spec : EnvVarSpec) : Except PyExc PyVal :=
  match v with
  | PyVal.str s =>
      let l := pyLower s
      if l = "true" ∨ l = "1" ∨ l = "yes" ∨ l = "on" then
        Except.ok (PyVal.bool true)
      else if l = "false" ∨ l = "0" ∨ l = "no" ∨ l = "off" then
        Except.ok (PyVal.bool false)
      else Except.error (PyExc.valueError "无法转换为布尔值")
  | _ => Except.error (PyExc.attributeError "lower")

/-- The `except ValueError` around the per-type validation in
`validate_env_vars`: a `ValueError` is re-raised with the variable name
prepended; any other exception propagates unchanged. -/
def wrapTypeError (name : String) :
    Except PyExc PyVal → Except PyExc (Option PyVal)
  | Except.ok v2 => Except.ok (some v2)
  | Except.error (PyExc.valueError m) =>
      Except.error (PyExc.valueError ("环境变量 " ++ name ++ " 验证失败: " ++ m))
  | Except.error e => Except.error e

/--
Validation of a single schema entry, following
`SimpleEnvValidator.validate_env_vars` (lines 32-64): read the variable from
the environment, fall back to the default; a required variable that is still
`None` raises `ValueError`; a non-required absent variable is skipped
(`Except.ok none`); otherwise dispatch on the declared type.
-/
def validateOne (env : List (String × String)) (name : String)
    (spec : EnvVarSpec) : Except PyExc (Option PyVal) :=
  let value : Option PyVal :=
    match env.lookup name with
    | some s => some (PyVal.str s)
    | none => spec.default
  match value with
  | none =>
      if spec.required then
        Except.error (PyExc.valueError ("必需环境变量 " ++ name ++ " 未设置"))
      else Except.ok none
  | some v =>
      wrapTypeError name
        (match spec.type with
         | EnvVarType.string => validateString v spec
         | EnvVarType.integer => validateInteger v spec
         | EnvVarType.float => validateFloat v spec
         | EnvVarType.boolean => validateBoolean v spec)

/-- `SimpleEnvValidator.validate_env_vars`: validate each schema entry in
order, collecting the validated values; the first failure raises. -/
def validateEnvVars (env : List (String × String)) :
    List (String × EnvVarSpec) → Except PyExc (List (String × PyVal))
  | [] => Except.ok []
  | (name, spec) :: rest =>
      match validateOne env name spec with
      | Except.error e => Except.error e
      | Except.ok none => validateEnvVars env rest
      | Except.ok (some v) =>
          match validateEnvVars env rest with
          | Except.error e => Except.error e
          | Except.ok vs => Except.ok ((name, v) :: vs)

/-- `DatabaseConfigManager.get_env_schema`: the nine schema entries, in dict
insertion order, for a given variable-name prefix. -/
def getEnvSchema (pfx : String) : List (String × EnvVarSpec) :=
  [ (pfx ++ "HOST", { type := EnvVarType.string, required := true, default := some (PyVal.str "localhost") }),
    (pfx ++ "PORT", { type := EnvVarType.integer, default := some (PyVal.int 3306), min := some 1, max := some 65535 }),
    (pfx ++ "USER", { type := EnvVarType.string, required := true }),
    (pfx ++ "PASSWORD", { type := EnvVarType.string, required := true }),
    (pfx ++ "DATABASE", { type := EnvVarType.string, required := true }),
    (pfx ++ "POOL_SIZE", { type := EnvVarType.integer, default := some (PyVal.int 10), min := some 1, max := some 100 }),
    (pfx ++ "MAX_OVERFLOW", { type := EnvVarType.integer, default := some (PyVal.int 20), min := some 0, max := some 100 }),
    (pfx ++ "CHARSET", { type := EnvVarType.string, default := some (PyVal.str "utf8mb4") }),
    (pfx ++ "COLLATION", { type := EnvVarType.string, default := some (PyVal.str "utf8mb4_unicode_ci") }) ]

/-- Read a validated string value (the dataclass stores values untyped; the
schema guarantees the shape, so the fallback is never exercised). -/
def pyValStr (v : Option PyVal) : String :=
  match v with
  | some (PyVal.str s) => s
  | _ => ""

/-- Read a validated integer value (shape guaranteed by the schema). -/
def pyValInt (v : Option PyVal) : Int :=
  match v with
  | some (PyVal.int n) => n
  | _ => 0

/--
`DatabaseConfigManager.load_config`: validate the environment against the
schema for the given prefix and build a `DatabaseConfig` from the validated
values.  There is no `try`/`except` here: a validation `ValueError`
propagates to the caller unchanged.
-/
def loadConfig (env : List (String × String)) (pfx : String) :
    Except PyExc DatabaseConfig :=
  match validateEnvVars env (getEnvSchema pfx) with
  | Except.error e => Except.error e
  | Except.ok vars =>
      Except.ok
        { host := pyValStr (vars.lookup (pfx ++ "HOST"))
          port := pyValInt (vars.lookup (pfx ++ "PORT"))
          user := pyValStr (vars.lookup (pfx ++ "USER"))
          password := pyValStr (vars.lookup (pfx ++ "PASSWORD"))
          database := pyValStr (vars.lookup (pfx ++ "DATABASE"))
          pool_size := (pyValInt (vars.lookup (pfx ++ "POOL_SIZE"))).toNat
          max_overflow :=
            (pyValInt (vars.lookup (pfx ++ "MAX_OVERFLOW"))).toNat
          charset := pyValStr (vars.lookup (pfx ++ "CHARSET"))
          collation := pyValStr (vars.lookup (pfx ++ "COLLATION")) }

theorem validateString_error (v : PyVal) (spec : EnvVarSpec) (e : PyExc)
    (h : validateString v spec = Except.error e) :
    ∃ m, e = PyExc.valueError m := by
  unfold validateString at h
  repeat' split at h
  all_goals
    first
      | (simp at h
         done)
      | exact ⟨_, (Except.error.inj h).symm⟩

theorem validateInteger_error (v : PyVal) (spec : EnvVarSpec) (e : PyExc)
    (h : validateInteger v spec = Except.error e) :
    ∃ m, e = PyExc.valueError m := by
  unfold validateInteger at h
  repeat' split at h
  all_goals
    first
      | (simp at h
         done)
      | exact ⟨_, (Except.error.inj h).symm⟩

theorem validateFloat_error (v : PyVal) (spec : EnvVarSpec) (e : PyExc)
    (h : validateFloat v spec = Except.error e) :
    ∃ m, e = PyExc.valueError m := by
  unfold validateFloat at h
  repeat' split at h
  all_goals
    first
      | (simp at h
         done)
      | exact ⟨_, (Except.error.inj h).symm⟩

theorem wrapTypeError_error (name : String) (res : Except PyExc PyVal)
    (e : PyExc)
    (hres : ∀ e0, res = Except.error e0 → ∃ m, e0 = PyExc.valueError m)
    (h : wrapTypeError name res = Except.error e) :
    ∃ m, e = PyExc.valueError m := by
  cases res with
  | ok v2 => simp [wrapTypeError] at h
  | error e2 =>
    cases e2 <;>
      first
        | exact ⟨_, (Except.error.inj h).symm⟩
        | (rcases hres _ rfl with ⟨m, hm⟩
           exact absurd hm (by simp))

theorem validateOne_error_valueError (env : List (String × String))
    (name : String) (spec : EnvVarSpec)
    (hty : spec.type = EnvVarType.string ∨ spec.type = EnvVarType.integer)
    (e : PyExc) (h : validateOne env name spec = Except.error e) :
    ∃ m, e = PyExc.valueError m := by
  simp only [validateOne] at h
  split at h
  · split at h
    · exact ⟨_, (Except.error.inj h).symm⟩
    · simp at h
  · refine wrapTypeError_error name _ e ?_ h
    intro e0 he0
    rcases hty with hty | hty <;> rw [hty] at he0
    · exact validateString_error _ _ _ he0
    · exact validateInteger_error _ _ _ he0

theorem validateEnvVars_entry_error (env : List (String × String))
    (schema : List (String × EnvVarSpec)) (name : String) (spec : EnvVarSpec)
    (hmem : (name, spec) ∈ schema) (e0 : PyExc)
    (hone : validateOne env name spec = Except.error e0) :
    ∃ e, validateEnvVars env schema = Except.error e := by
  induction schema with
  | nil => exact absurd hmem (List.not_mem_nil _)
  | cons p rest ih =>
    rcases List.mem_cons.mp hmem with heq | hmem2
    · subst heq
      exact ⟨e0, by simp [validateEnvVars, hone]⟩
    · rcases p with ⟨n0, s0⟩
      simp only [validateEnvVars]
      rcases h0 : validateOne env n0 s0 with e1 | v0
      · exact ⟨e1, rfl⟩
      · rcases v0 with _ | v1
        · exact ih hmem2
        · rcases ih hmem2 with ⟨e2, he2⟩
          exact ⟨e2, by simp [he2]⟩

theorem validateEnvVars_error_valueError (env : List (String × String))
    (schema : List (String × EnvVarSpec))
    (hall : ∀ p ∈ schema,
      p.2.type = EnvVarType.string ∨ p.2.type = EnvVarType.integer)
    (e : PyExc) (h : validateEnvVars env schema = Except.error e) :
    ∃ m, e = PyExc.valueError m := by
  induction schema with
  | nil => simp [validateEnvVars] at h
  | cons p rest ih =>
    rcases p with ⟨n0, s0⟩
    simp only [validateEnvVars] at h
    rcases h0 : validateOne env n0 s0 with e1 | v0
    · rw [h0] at h
      obtain rfl := Except.error.inj h
      exact validateOne_error_valueError env n0 s0
        (hall (n0, s0) (List.mem_cons_self _ _)) e1 h0
    · rw [h0] at h
      rcases v0 with _ | v1
      · exact ih (fun p hp => hall p (List.mem_cons_of_mem _ hp)) h
      · rcases h1 : validateEnvVars env rest with e2 | vs
        · rw [h1] at h
          obtain rfl := Except.error.inj h
          exact ih (fun p hp => hall p (List.mem_cons_of_mem _ hp)) h1
        · rw [h1] at h
          simp at h

theorem getEnvSchema_types (pfx : String) :
    ∀ p ∈ getEnvSchema pfx,
      p.2.type = EnvVarType.string ∨ p.2.type = EnvVarType.integer := by
  intro p hp
  simp only [getEnvSchema, List.mem_cons, List.not_mem_nil, or_false] at hp
  rcases hp with rfl | rfl | rfl | rfl | rfl | rfl | rfl | rfl | rfl <;>
    first
      | exact Or.inl rfl
      | exact Or.inr rfl

theorem validateOne_missing_required (env : List (String × String))
    (name : String) (spec : EnvVarSpec) (hreq : spec.required = true)
    (hdef : spec.default = none) (hlook : env.lookup name = none) :
    validateOne env name spec =
      Except.error (PyExc.valueError ("必需环境变量 " ++ name ++ " 未设置")) := by
  simp [validateOne, hlook, hdef, hreq]

theorem validateOne_int_unparseable (env : List (String × String))
    (name : String) (spec : EnvVarSpec) (s : String)
    (hty : spec.type = EnvVarType.integer) (hlook : env.lookup name = some s)
    (hbad : parsePyInt s = none) :
    validateOne env name spec =
      Except.error (PyExc.valueError
        ("环境变量 " ++ name ++ " 验证失败: " ++ "无法转换为整数")) := by
  simp [validateOne, hlook, hty, validateInteger, pyToInt, hbad, wrapTypeError]

theorem validateOne_int_out_of_range (env : List (String × String))
    (name : String) (spec : EnvVarSpec) (s : String) (n : Int)
    (hty : spec.type = EnvVarType.integer) (hlook : env.lookup name = some s)
    (hparse : parsePyInt s = some n)
    (hr : (spec.min.any fun lo => decide (n < lo)) = true ∨
      (spec.max.any fun hi => decide (hi < n)) = true) :
    ∃ e0, validateOne env name spec = Except.error e0 := by
  rcases hr with hr | hr
  · refine ⟨PyExc.valueError
      ("环境变量 " ++ name ++ " 验证失败: " ++ "值不能小于最小值"), ?_⟩
    simp [validateOne, hlook, hty, validateInteger, pyToInt, hparse, hr,
      wrapTypeError]
  · by_cases hmin : (spec.min.any fun lo => decide (n < lo)) = true
    · refine ⟨PyExc.valueError
        ("环境变量 " ++ name ++ " 验证失败: " ++ "值不能小于最小值"), ?_⟩
      simp [validateOne, hlook, hty, validateInteger, pyToInt, hparse, hmin,
        wrapTypeError]
    · refine ⟨PyExc.valueError
        ("环境变量 " ++ name ++ " 验证失败: " ++ "值不能大于最大值"), ?_⟩
      simp [validateOne, hlook, hty, validateInteger, pyToInt, hparse, hmin,
        hr, wrapTypeError]

/--
C9 (amended).  Schema-validation failures do make configuration loading
fail — a missing required variable, an out-of-range integer, or an
unparseable integer each abort `load_config` — but the exception the caller
sees is the validator's raw `ValueError`, not the `DatabaseConfigError`
taxonomy kind: `load_config` installs no handler and `validate_env_vars`
only ever raises `ValueError`.
-/
theorem config_load_failure_is_raw_valueError (env : List (String × String))
    (pfx : String) :
    (∀ e, validateEnvVars env (getEnvSchema pfx) = Except.error e →
      ∃ m, e = PyExc.valueError m) ∧
    (∀ e, validateEnvVars env (getEnvSchema pfx) = Except.error e →
      loadConfig env pfx = Except.error e) ∧
    (∀ name spec, (name, spec) ∈ getEnvSchema pfx → spec.required = true →
      spec.default = none → env.lookup name = none →
      ∃ m, loadConfig env pfx = Except.error (PyExc.valueError m)) ∧
    (∀ name spec s n, (name, spec) ∈ getEnvSchema pfx →
      spec.type = EnvVarType.integer → env.lookup name = some s →
      parsePyInt s = some n →
      ((spec.min.any fun lo => decide (n < lo)) = true ∨
        (spec.max.any fun hi => decide (hi < n)) = true) →
      ∃ m, loadConfig env pfx = Except.error (PyExc.valueError m)) ∧
    (∀ name spec s, (name, spec) ∈ getEnvSchema pfx →
      spec.type = EnvVarType.integer → env.lookup name = some s →
      parsePyInt s = none →
      ∃ m, loadConfig env pfx = Except.error (PyExc.valueError m)) := by
  have hshape : ∀ e, validateEnvVars env (getEnvSchema pfx) =
      Except.error e → ∃ m, e = PyExc.valueError m := fun e he =>
    validateEnvVars_error_valueError env (getEnvSchema pfx)
      (getEnvSchema_types pfx) e he
  have hprop : ∀ e, validateEnvVars env (getEnvSchema pfx) = Except.error e →
      loadConfig env pfx = Except.error e := by
    intro e he
    simp [loadConfig, he]
  refine ⟨hshape, hprop, ?_, ?_, ?_⟩
  · intro name spec hmem hreq hdef hlook
    obtain ⟨e, he⟩ := validateEnvVars_entry_error env (getEnvSchema pfx)
      name spec hmem _
      (validateOne_missing_required env name spec hreq hdef hlook)
    obtain ⟨m, rfl⟩ := hshape e he
    exact ⟨m, hprop _ he⟩
  · intro name spec s n hmem hty hlook hparse hr
    obtain ⟨e0, h0⟩ :=
      validateOne_int_out_of_range env name spec s n hty hlook hparse hr
    obtain ⟨e, he⟩ := validateEnvVars_entry_error env (getEnvSchema pfx)
      name spec hmem e0 h0
    obtain ⟨m, rfl⟩ := hshape e he
    exact ⟨m, hprop _ he⟩
  · intro name spec s hmem hty hlook hbad
    obtain ⟨e, he⟩ := validateEnvVars_entry_error env (getEnvSchema pfx)
      name spec hmem _
      (validateOne_int_unparseable env name spec s hty hlook hbad)
    obtain ⟨m, rfl⟩ := hshape e he
    exact ⟨m, hprop _ he⟩

/--
C9 counterexample to the claim as stated: with `MYSQL_USER` unset (and no
default), `load_config` fails — but with the raw `ValueError` from the
validator, not with the `DatabaseConfigError` taxonomy kind, which this
path never raises.
-/
theorem config_load_valueError_counterexample :
    loadConfig [("MYSQL_HOST", "h"), ("MYSQL_PASSWORD", "p"),
      ("MYSQL_DATABASE", "d")] "MYSQL_" =
      Except.error (PyExc.valueError "必需环境变量 MYSQL_USER 未设置") ∧
    loadConfig [("MYSQL_HOST", "h"), ("MYSQL_PASSWORD", "p"),
      ("MYSQL_DATABASE", "d")] "MYSQL_" ≠
      Except.error PyExc.databaseConfigError := by
  constructor
  · decide
  · decide

/-- Closed witness for `config_load_failure_is_raw_valueError`: the missing
`MYSQL_USER` case, instantiated. -/
theorem config_load_failure_witness :
    ∃ m, loadConfig [("MYSQL_HOST", "h"), ("MYSQL_PASSWORD", "p"),
      ("MYSQL_DATABASE", "d")] "MYSQL_" =
      Except.error (PyExc.valueError m) :=
  (config_load_failure_is_raw_valueError
    [("MYSQL_HOST", "h"), ("MYSQL_PASSWORD", "p"), ("MYSQL_DATABASE", "d")]
    "MYSQL_").2.2.1 ("MYSQL_" ++ "USER")
    { type := EnvVarType.string, required := true } (by decide) rfl rfl
    (by decide)

/-! ### Claim C10: `DatabaseConfigManager.get_all_configs` -/

/-- Python `str.replace(pat, sub)`: replace every occurrence of `pat`
left-to-right (character-list form). -/
def replaceAll (l pat sub : List Char) : List Char :=
  match l with
  | [] => []
  | c :: rest =>
      if h : pat ≠ [] ∧ (c :: rest).take pat.length = pat then
        sub ++ replaceAll ((c :: rest).drop pat.length) pat sub
      else c :: replaceAll rest pat sub
termination_by l.length
decreasing_by
  · have hlen : pat.length ≤ (c :: rest).length := by
      have := congrArg List.length h.2
      rw [List.length_take] at this
      omega
    have hpos : 0 < pat.length := List.length_pos.mpr h.1
    simp only [List.length_drop]
    simp only [List.length_cons] at hlen ⊢
    omega
  · simp

/-- Python `str.upper` (character-wise). -/
def pyUpper (s : String) : String := String.mk (s.data.map Char.toUpper)

/-- The secondary-config name computed in the loop body of
`get_all_configs`:
`key.replace("MYSQL_", "").replace("_HOST", "").lower()`. -/
def secondaryName (key : String) : String :=
  pyLower (String.mk (replaceAll (replaceAll key.data "MYSQL_".data [])
    "_HOST".data []))

/-- One iteration of the discovery loop of `get_all_configs`: skip the name
`"mysql"`, otherwise load the secondary configuration
(`get_secondary_config`, prefix `MYSQL_{NAME.upper()}_`) and append it. -/
def addSecondary (env : List (String × String))
    (acc : Except PyExc (List (String × DatabaseConfig))) (key : String) :
    Except PyExc (List (String × DatabaseConfig)) :=
  match acc with
  | Except.error e => Except.error e
  | Except.ok configs =>
      let config_name := secondaryName key
      if config_name ≠ "mysql" then
        match loadConfig env ("MYSQL_" ++ pyUpper config_name ++ "_") with
        | Except.error e => Except.error e
        | Except.ok cfg => Except.ok (configs ++ [(config_name, cfg)])
      else Except.ok configs

/--
`DatabaseConfigManager.get_all_configs` (settings.py lines 130-141): start
from the default configuration under the key `"default"`, then scan the
environment keys for secondary configurations guarded by
`key.startswith("MYSQL_") and key.endswith("_HOST") and
not key.startswith("MYSQL_")`.
-/
def getAllConfigs (env : List (String × String)) :
    Except PyExc (List (String × DatabaseConfig)) :=
  match loadConfig env "MYSQL_" with
  | Except.error e => Except.error e
  | Except.ok defaultCfg =>
      ((env.map Prod.fst).filter (fun k =>
        k.startsWith "MYSQL_" && k.endsWith "_HOST" &&
          !(k.startsWith "MYSQL_"))).foldl (addSecondary env)
        (Except.ok [("default", defaultCfg)])

/--
C10.  The guard of the secondary-configuration discovery loop requires a key
that both starts with `"MYSQL_"` and does not start with `"MYSQL_"`, which no
string satisfies; hence the loop body never runs and `get_all_configs`
returns exactly the single `"default"` entry (whenever the default load
succeeds, and exactly its error otherwise) for every environment.
-/
theorem get_all_configs_only_default (env : List (String × String)) :
    (∀ k : String,
      (k.startsWith "MYSQL_" && k.endsWith "_HOST" &&
        !(k.startsWith "MYSQL_")) = false) ∧
    getAllConfigs env =
      (loadConfig env "MYSQL_").map (fun c => [("default", c)]) := by
  have hguard : ∀ k : String,
      (k.startsWith "MYSQL_" && k.endsWith "_HOST" &&
        !(k.startsWith "MYSQL_")) = false := by
    intro k
    cases h1 : k.startsWith "MYSQL_" <;> simp [h1]
  refine ⟨hguard, ?_⟩
  unfold getAllConfigs
  cases hl : loadConfig env "MYSQL_" with
  | error e => simp [Except.map]
  | ok c =>
      have hfilter : (env.map Prod.fst).filter (fun k =>
          k.startsWith "MYSQL_" && k.endsWith "_HOST" &&
            !(k.startsWith "MYSQL_")) = [] := by
        rw [List.filter_eq_nil_iff]
        intro a _
        simp [hguard a]
      rw [hfilter]
      simp [Except.map]

end MysqlDb
